import Mathlib

/-!
Verification of the conversation state machine of the Azure provisioning
chatbot (backend/app/main.py, backend/app/chat/conversation.py,
backend/app/chat/flows.py).

The Python sources are shallowly embedded as executable Lean definitions:
  * Python dict values become the `Val` type (strings, ints, bools, None,
    plus nested lists/dicts as used by the VNet `subnets` entry);
  * Python dicts keyed by strings become association lists
    `List (String × Val)` with first-match lookup and in-place update,
    matching the unique-key discipline of the source;
  * Python string operations are re-implemented over `List Char` so that
    every definition evaluates inside the kernel (`strLower`, `strTrim`,
    `strContains`, ... mirror `str.lower`, `str.strip`, `in`, ...);
  * the FastAPI handlers `process_message`, `handle_*`,
    `get_next_config_question`, `move_to_confirmation` become pure
    functions `ConversationSession → String → ConversationSession ×
    ChatResponse`.  Response message text, the chat history log and the
    session id are not read back by any state transition and are omitted
    from the embedding; the response `state` and `options` fields are kept.
  * the two external effects touched by the state machine (the
    `AZURE_SUBSCRIPTION_ID` environment variable and the outcome of the
    Azure SDK provisioning call) are passed in explicitly via `SysEnv`.
-/

/- Python values stored in session dictionaries: strings, ints, booleans,
`None`, and the nested list/dict shape used for the VNet `subnets` entry.
`ValList` and `Dict` are the (mutual) list and string-keyed-dict spines. -/
mutual
inductive Val where
  | vstr : String → Val
  | vint : Int → Val
  | vbool : Bool → Val
  | vnone : Val
  | vlist : ValList → Val
  | vdict : Dict → Val
  deriving DecidableEq, Repr
inductive ValList where
  | nil : ValList
  | cons : Val → ValList → ValList
  deriving DecidableEq, Repr
inductive Dict where
  | nil : Dict
  | cons : String → Val → Dict → Dict
  deriving DecidableEq, Repr
end

/-- Lookup in a string-keyed association list (Python `d.get(k)` /
`d[k]`); keys are kept unique by `dictSet`, so first match is the match. -/
def dictGet (d : List (String × Val)) (k : String) : Option Val :=
  match d with
  | [] => none
  | (k1, v1) :: rest => if k1 = k then some v1 else dictGet rest k

/-- Python `d[k] = v`: update the existing key in place (insertion order is
preserved) or append a new binding at the end. -/
def dictSet (d : List (String × Val)) (k : String) (v : Val) : List (String × Val) :=
  match d with
  | [] => [(k, v)]
  | (k1, v1) :: rest => if k1 = k then (k1, v) :: rest else (k1, v1) :: dictSet rest k v

/-- Python `d.get(k)` (missing key yields `None`). -/
def pyGet (d : List (String × Val)) (k : String) : Val :=
  (dictGet d k).getD Val.vnone

/-- Python `d.get(k, dflt)`. -/
def pyGetD (d : List (String × Val)) (k : String) (dflt : Val) : Val :=
  (dictGet d k).getD dflt

/-- Python `str.lower()` (ASCII; all inputs in this code base are ASCII). -/
def strLower (s : String) : String := ⟨s.data.map Char.toLower⟩

/-- Python `str.strip()`: remove leading and trailing whitespace. -/
def strTrim (s : String) : String :=
  ⟨((s.data.dropWhile Char.isWhitespace).reverse.dropWhile Char.isWhitespace).reverse⟩

/-- Python `int(s)` on a string of decimal digits (every call site is
guarded by `str.isdigit`). -/
def strToNat (s : String) : Nat := s.data.foldl (fun n c => n * 10 + (c.toNat - 48)) 0

/-- Decidable list-prefix test. -/
def listPrefixOf : List Char → List Char → Bool
  | [], _ => true
  | _ :: _, [] => false
  | a :: as, b :: bs => a == b && listPrefixOf as bs

/-- Decidable contiguous-sublist test. -/
def listInfixOf (needle hay : List Char) : Bool :=
  match hay with
  | [] => listPrefixOf needle []
  | _ :: t => listPrefixOf needle hay || listInfixOf needle t

/-- Python `needle in hay` for strings (substring containment). -/
def strContains (hay needle : String) : Bool := listInfixOf needle.data hay.data

/-- Python `s.startswith(p)`. -/
def strStartsWith (s p : String) : Bool := listPrefixOf p.data s.data

/-- Python `s[n:]`. -/
def strDrop (s : String) (n : Nat) : String := ⟨s.data.drop n⟩

/-- Python `s.isdigit()`: non-empty and all decimal digits. -/
def pyIsDigit (s : String) : Bool := !s.data.isEmpty && s.data.all Char.isDigit

/-- Python `s.isalnum()`: non-empty and all alphanumeric. -/
def pyIsAlnum (s : String) : Bool := !s.data.isEmpty && s.data.all Char.isAlphanum

/-- Python `s.islower()`: at least one cased character and no uppercase
character (ASCII approximation: cased = alphabetic). -/
def pyIsLower (s : String) : Bool :=
  s.data.any Char.isAlpha && s.data.all (fun c => !c.isUpper)

/-- Python `s.replace(str(c), "")`: remove every occurrence of the
character `c` (the source only ever replaces single characters by ""). -/
def strRemove (s : String) (c : Char) : String := ⟨s.data.filter (fun x => x != c)⟩

/-- Supported Azure resource types (models/schemas.py `ResourceType`). -/
inductive ResourceType where
  | VIRTUAL_MACHINE
  | VIRTUAL_NETWORK
  | STORAGE_ACCOUNT
  | AKS_CLUSTER
  | NETWORK_INTERFACE
  | PUBLIC_IP
  | POSTGRESQL
  | MYSQL
  | SQL_DATABASE
  | COSMOSDB
  deriving DecidableEq, Repr

/-- States of the conversation flow (models/schemas.py `ConversationState`). -/
inductive ConversationState where
  | INITIAL
  | RESOURCE_SELECTION
  | SUBSCRIPTION
  | RESOURCE_GROUP
  | REGION
  | RESOURCE_CONFIG
  | CONFIRMATION
  | EXECUTION_METHOD
  | CREATING
  | COMPLETED
  | ERROR
  deriving DecidableEq, Repr

/-- The response of one chat turn (models/schemas.py `ChatResponse`),
restricted to the fields the state machine and the claims depend on:
the advertised `state` and the `options` list.  The free-text `message`
and the summary/cost/terraform payloads are produced but never read back
by any transition and are omitted. -/
structure ChatResponse where
  state : ConversationState
  options : Option (List String) := none
  deriving DecidableEq, Repr

/-- Conversation session state (models/schemas.py `ConversationSession`).
The `session_id`, the append-only `messages` log and the never-written
`current_question` field are omitted: no transition reads them. -/
structure ConversationSession where
  state : ConversationState := ConversationState.INITIAL
  resource_type : Option ResourceType := none
  subscription_id : Option String := none
  resource_group : Option String := none
  create_new_rg : Bool := false
  region : Option String := none
  config : List (String × Val) := []
  execution_method : Option String := none
  collected_params : List (String × Val) := []
  deriving DecidableEq, Repr

/-- External inputs consumed by the state machine: the
`AZURE_SUBSCRIPTION_ID` environment variable (`""` when unset, matching
`os.getenv("AZURE_SUBSCRIPTION_ID", "")`), and whether the Azure SDK
provisioning call in `handle_execution_method` succeeds (`false` covers
both a reported failure and a raised exception — both transition to
`ERROR` without touching the rest of the session). -/
structure SysEnv where
  azureSubscriptionId : String := ""
  execSuccess : Bool := true

/-- vm_service.py `VM_SIZES`. -/
def VM_SIZES : List String :=
  ["Standard_B1s", "Standard_B2s", "Standard_B2ms", "Standard_D2s_v3",
   "Standard_D4s_v3", "Standard_D8s_v3", "Standard_E2s_v3", "Standard_E4s_v3",
   "Standard_F2s_v2", "Standard_F4s_v2"]

/-- vm_service.py `list(OS_IMAGES.keys())` in insertion order. -/
def OS_IMAGE_KEYS : List String :=
  ["Ubuntu2204", "Ubuntu2004", "WindowsServer2022", "WindowsServer2019",
   "RHEL8", "Debian11"]

/-- vnet_service.py `AZURE_REGIONS`. -/
def AZURE_REGIONS : List String :=
  ["eastus", "eastus2", "westus", "westus2", "westus3", "centralus",
   "northcentralus", "southcentralus", "westcentralus", "canadacentral",
   "canadaeast", "brazilsouth", "northeurope", "westeurope", "uksouth",
   "ukwest", "francecentral", "germanywestcentral", "norwayeast",
   "switzerlandnorth", "uaenorth", "southafricanorth", "australiaeast",
   "australiasoutheast", "centralindia", "southindia", "japaneast",
   "japanwest", "koreacentral", "southeastasia", "eastasia"]

/-- storage_service.py `STORAGE_SKUS`. -/
def STORAGE_SKUS : List String :=
  ["Standard_LRS", "Standard_GRS", "Standard_RAGRS", "Standard_ZRS",
   "Premium_LRS", "Premium_ZRS"]

/-- storage_service.py `STORAGE_KINDS`. -/
def STORAGE_KINDS : List String :=
  ["StorageV2", "Storage", "BlobStorage", "BlockBlobStorage", "FileStorage"]

/-- storage_service.py `ACCESS_TIERS`. -/
def ACCESS_TIERS : List String := ["Hot", "Cool"]

/-- aks_service.py `AKS_VM_SIZES`. -/
def AKS_VM_SIZES : List String :=
  ["Standard_D2s_v3", "Standard_D4s_v3", "Standard_D8s_v3", "Standard_D2s_v4",
   "Standard_D4s_v4", "Standard_E2s_v3", "Standard_E4s_v3", "Standard_B2s",
   "Standard_B4ms", "Standard_F4s_v2"]

/-- aks_service.py `K8S_VERSIONS`. -/
def K8S_VERSIONS : List String := ["1.28", "1.27", "1.26"]

/-- aks_service.py `NETWORK_PLUGINS`. -/
def NETWORK_PLUGINS : List String := ["azure", "kubenet"]

/-- database_service.py `POSTGRESQL_SKUS`. -/
def POSTGRESQL_SKUS : List String :=
  ["Standard_B1ms", "Standard_B2s", "Standard_D2s_v3", "Standard_D4s_v3",
   "Standard_E2s_v3"]

/-- database_service.py `POSTGRESQL_VERSIONS`. -/
def POSTGRESQL_VERSIONS : List String := ["16", "15", "14", "13", "12"]

/-- database_service.py `MYSQL_SKUS`. -/
def MYSQL_SKUS : List String :=
  ["Standard_B1ms", "Standard_B2s", "Standard_D2ds_v4", "Standard_D4ds_v4",
   "Standard_E2ds_v4"]

/-- database_service.py `MYSQL_VERSIONS`. -/
def MYSQL_VERSIONS : List String := ["8.0.21", "5.7"]

/-- database_service.py `SQL_TIERS`. -/
def SQL_TIERS : List String :=
  ["Basic", "Standard", "Premium", "GeneralPurpose", "BusinessCritical"]

/-- database_service.py `COSMOS_CONSISTENCY_LEVELS`. -/
def COSMOS_CONSISTENCY_LEVELS : List String :=
  ["Eventual", "ConsistentPrefix", "Session", "BoundedStaleness", "Strong"]

/-- One configuration question (flows.py question dicts): target `key`,
prompt text, optional option set, optional validation predicate, optional
error message, optional default (always a string or absent/None in the
source, and `None` behaves exactly like an absent key at every use site),
optional transform to the stored value. -/
structure Question where
  key : String
  question : String
  options : Option (List String) := none
  validation : Option (String → Bool) := none
  error : Option String := none
  default : Option String := none
  transform : Option (String → Val) := none

/-- flows.py `ResourceFlows.VM_QUESTIONS`. -/
def VM_QUESTIONS : List Question :=
  [{ key := "name", question := "What would you like to name your Virtual Machine?",
     validation := some (fun x => decide (1 ≤ x.length ∧ x.length ≤ 64)),
     error := some "VM name must be between 1 and 64 characters." },
   { key := "size", question := "Select a VM size:",
     options := some VM_SIZES, default := some "Standard_B2s" },
   { key := "os_image", question := "Select an operating system:",
     options := some OS_IMAGE_KEYS, default := some "Ubuntu2204" },
   { key := "os_disk_type", question := "Select OS disk type:",
     options := some ["Standard_LRS", "StandardSSD_LRS", "Premium_LRS"],
     default := some "Standard_LRS" },
   { key := "admin_username", question := "Enter admin username:",
     validation := some (fun x => decide (1 ≤ x.length ∧ x.length ≤ 64) &&
       !(["admin", "administrator", "root"].contains (strLower x))),
     error := some "Username must be 1-64 characters and cannot be admin, administrator, or root.",
     default := some "azureuser" },
   { key := "create_public_ip", question := "Create a public IP address for remote access?",
     options := some ["yes", "no"], default := some "yes",
     transform := some (fun x => Val.vbool (strLower x == "yes")) }]

/-- flows.py `ResourceFlows.VNET_QUESTIONS`. -/
def VNET_QUESTIONS : List Question :=
  [{ key := "name", question := "What would you like to name your Virtual Network?",
     validation := some (fun x => decide (2 ≤ x.length ∧ x.length ≤ 64)),
     error := some "VNet name must be between 2 and 64 characters." },
   { key := "address_space",
     question := "Enter the address space (CIDR notation, e.g., 10.0.0.0/16):",
     validation := some (fun x => strContains x "/" && decide ((x.data.splitOn (Char.ofNat 47)).length = 2)),
     error := some "Please enter a valid CIDR notation (e.g., 10.0.0.0/16).",
     default := some "10.0.0.0/16" },
   { key := "subnet_name", question := "Enter the name for the default subnet:",
     default := some "default" },
   { key := "subnet_prefix",
     question := "Enter the subnet address prefix (e.g., 10.0.0.0/24):",
     validation := some (fun x => strContains x "/" && decide ((x.data.splitOn (Char.ofNat 47)).length = 2)),
     error := some "Please enter a valid CIDR notation (e.g., 10.0.0.0/24).",
     default := some "10.0.0.0/24" }]

/-- flows.py `ResourceFlows.STORAGE_QUESTIONS`. -/
def STORAGE_QUESTIONS : List Question :=
  [{ key := "name",
     question := "Enter a name for your Storage Account (3-24 chars, lowercase letters and numbers only):",
     validation := some (fun x => decide (3 ≤ x.length ∧ x.length ≤ 24) &&
       pyIsAlnum x && pyIsLower x),
     error := some "Storage account name must be 3-24 characters, lowercase letters and numbers only." },
   { key := "sku", question := "Select storage redundancy (SKU):",
     options := some STORAGE_SKUS, default := some "Standard_LRS" },
   { key := "kind", question := "Select storage account kind:",
     options := some STORAGE_KINDS, default := some "StorageV2" },
   { key := "access_tier", question := "Select access tier:",
     options := some ACCESS_TIERS, default := some "Hot" }]

/-- flows.py `ResourceFlows.AKS_QUESTIONS`. -/
def AKS_QUESTIONS : List Question :=
  [{ key := "name", question := "What would you like to name your AKS cluster?",
     validation := some (fun x => decide (1 ≤ x.length ∧ x.length ≤ 63) &&
       pyIsAlnum (strRemove (strRemove x (Char.ofNat 45)) (Char.ofNat 95))),
     error := some "AKS name must be 1-63 characters, alphanumeric, hyphens, and underscores only." },
   { key := "dns_prefix", question := "Enter a DNS prefix for the cluster:",
     validation := some (fun x => decide (1 ≤ x.length) &&
       pyIsAlnum (strRemove x (Char.ofNat 45))),
     error := some "DNS prefix must be alphanumeric with optional hyphens." },
   { key := "kubernetes_version", question := "Select Kubernetes version:",
     options := some K8S_VERSIONS, default := some "1.28" },
   { key := "node_count", question := "How many nodes in the default node pool? (1-100):",
     validation := some (fun x => pyIsDigit x && decide (1 ≤ strToNat x ∧ strToNat x ≤ 100)),
     error := some "Node count must be between 1 and 100.",
     default := some "3",
     transform := some (fun x => Val.vint (strToNat x)) },
   { key := "node_vm_size", question := "Select VM size for nodes:",
     options := some AKS_VM_SIZES, default := some "Standard_D2s_v3" },
   { key := "network_plugin", question := "Select network plugin:",
     options := some NETWORK_PLUGINS, default := some "azure" }]

/-- flows.py `ResourceFlows.POSTGRESQL_QUESTIONS`. -/
def POSTGRESQL_QUESTIONS : List Question :=
  [{ key := "name",
     question := "Enter a name for your PostgreSQL server (3-63 chars, lowercase, hyphens allowed):",
     validation := some (fun x => decide (3 ≤ x.length ∧ x.length ≤ 63) &&
       pyIsAlnum (strRemove x (Char.ofNat 45))),
     error := some "Server name must be 3-63 characters, lowercase letters, numbers, and hyphens." },
   { key := "version", question := "Select PostgreSQL version:",
     options := some POSTGRESQL_VERSIONS, default := some "15" },
   { key := "sku", question := "Select compute tier/SKU:",
     options := some POSTGRESQL_SKUS, default := some "Standard_B1ms" },
   { key := "storage_gb", question := "Storage size in GB (32-16384):",
     validation := some (fun x => pyIsDigit x && decide (32 ≤ strToNat x ∧ strToNat x ≤ 16384)),
     error := some "Storage must be between 32 and 16384 GB.",
     default := some "32",
     transform := some (fun x => Val.vint (strToNat x)) },
   { key := "admin_username", question := "Enter admin username:",
     validation := some (fun x => decide (1 ≤ x.length) &&
       !(["admin", "administrator", "root", "postgres", "azure_superuser"].contains (strLower x))),
     error := some "Username cannot be reserved words like admin, postgres, root, etc.",
     default := some "pgadmin" }]

/-- flows.py `ResourceFlows.MYSQL_QUESTIONS`. -/
def MYSQL_QUESTIONS : List Question :=
  [{ key := "name",
     question := "Enter a name for your MySQL server (3-63 chars, lowercase, hyphens allowed):",
     validation := some (fun x => decide (3 ≤ x.length ∧ x.length ≤ 63) &&
       pyIsAlnum (strRemove x (Char.ofNat 45))),
     error := some "Server name must be 3-63 characters, lowercase letters, numbers, and hyphens." },
   { key := "version", question := "Select MySQL version:",
     options := some MYSQL_VERSIONS, default := some "8.0.21" },
   { key := "sku", question := "Select compute tier/SKU:",
     options := some MYSQL_SKUS, default := some "Standard_B1ms" },
   { key := "storage_gb", question := "Storage size in GB (20-16384):",
     validation := some (fun x => pyIsDigit x && decide (20 ≤ strToNat x ∧ strToNat x ≤ 16384)),
     error := some "Storage must be between 20 and 16384 GB.",
     default := some "32",
     transform := some (fun x => Val.vint (strToNat x)) },
   { key := "admin_username", question := "Enter admin username:",
     validation := some (fun x => decide (1 ≤ x.length) &&
       !(["admin", "administrator", "root", "mysql", "azure_superuser"].contains (strLower x))),
     error := some "Username cannot be reserved words like admin, mysql, root, etc.",
     default := some "mysqladmin" }]

/-- flows.py `ResourceFlows.SQLDB_QUESTIONS`. -/
def SQLDB_QUESTIONS : List Question :=
  [{ key := "name", question := "Enter a name for your SQL Database:",
     validation := some (fun x => decide (1 ≤ x.length ∧ x.length ≤ 128)),
     error := some "Database name must be 1-128 characters." },
   { key := "server_name", question := "Enter a name for the SQL Server (will be created):",
     validation := some (fun x => decide (1 ≤ x.length ∧ x.length ≤ 63) &&
       pyIsAlnum (strRemove x (Char.ofNat 45))),
     error := some "Server name must be 1-63 characters, lowercase letters, numbers, and hyphens." },
   { key := "tier", question := "Select pricing tier:",
     options := some SQL_TIERS, default := some "Basic" },
   { key := "admin_username", question := "Enter admin username:",
     validation := some (fun x => decide (1 ≤ x.length) &&
       !(["admin", "administrator", "sa", "root"].contains (strLower x))),
     error := some "Username cannot be reserved words like admin, sa, root.",
     default := some "sqladmin" }]

/-- flows.py `ResourceFlows.COSMOSDB_QUESTIONS`. -/
def COSMOSDB_QUESTIONS : List Question :=
  [{ key := "name",
     question := "Enter a name for your Cosmos DB account (3-44 chars, lowercase):",
     validation := some (fun x => decide (3 ≤ x.length ∧ x.length ≤ 44) &&
       pyIsAlnum (strRemove x (Char.ofNat 45)) && pyIsLower x),
     error := some "Account name must be 3-44 characters, lowercase letters, numbers, and hyphens." },
   { key := "api_type", question := "Select API type:",
     options := some ["SQL", "MongoDB", "Cassandra", "Table", "Gremlin"],
     default := some "SQL" },
   { key := "consistency_level", question := "Select default consistency level:",
     options := some COSMOS_CONSISTENCY_LEVELS, default := some "Session" },
   { key := "enable_free_tier",
     question := "Enable free tier? (400 RU/s and 5 GB free per account):",
     options := some ["yes", "no"], default := some "no",
     transform := some (fun x => Val.vbool (strLower x == "yes")) }]

/-- flows.py `ResourceFlows.get_questions_for_resource`: the question list
for a resource type, `[]` for types without one. -/
def get_questions_for_resource (resource_type : Option ResourceType) : List Question :=
  match resource_type with
  | some ResourceType.VIRTUAL_MACHINE => VM_QUESTIONS
  | some ResourceType.VIRTUAL_NETWORK => VNET_QUESTIONS
  | some ResourceType.STORAGE_ACCOUNT => STORAGE_QUESTIONS
  | some ResourceType.AKS_CLUSTER => AKS_QUESTIONS
  | some ResourceType.POSTGRESQL => POSTGRESQL_QUESTIONS
  | some ResourceType.MYSQL => MYSQL_QUESTIONS
  | some ResourceType.SQL_DATABASE => SQLDB_QUESTIONS
  | some ResourceType.COSMOSDB => COSMOSDB_QUESTIONS
  | _ => []

/-- flows.py `ResourceFlows.parse_resource_selection`: free-text resource
selection.  First the `RESOURCE_OPTIONS` loop in dict insertion order
(`key in user_input or name.lower() in user_input`), then the partial-match
fallback chain, finally `None`. -/
def parse_resource_selection (user_input0 : String) : Option ResourceType :=
  let u := strTrim (strLower user_input0)
  if strContains u "vm" || strContains u "virtual machine" then some ResourceType.VIRTUAL_MACHINE
  else if strContains u "vnet" || strContains u "virtual network" then some ResourceType.VIRTUAL_NETWORK
  else if strContains u "storage" || strContains u "storage account" then some ResourceType.STORAGE_ACCOUNT
  else if strContains u "aks" || strContains u "aks cluster" then some ResourceType.AKS_CLUSTER
  else if strContains u "postgresql" || strContains u "postgresql database" then some ResourceType.POSTGRESQL
  else if strContains u "mysql" || strContains u "mysql database" then some ResourceType.MYSQL
  else if strContains u "sqldb" || strContains u "azure sql database" then some ResourceType.SQL_DATABASE
  else if strContains u "cosmosdb" || strContains u "cosmos db" then some ResourceType.COSMOSDB
  else if strContains u "virtual machine" || strContains u "vm" then some ResourceType.VIRTUAL_MACHINE
  else if strContains u "virtual network" || strContains u "vnet" ||
          (strContains u "network" && strContains u "vn") then some ResourceType.VIRTUAL_NETWORK
  else if strContains u "storage" || strContains u "blob" then some ResourceType.STORAGE_ACCOUNT
  else if strContains u "aks" || strContains u "kubernetes" || strContains u "k8s" then some ResourceType.AKS_CLUSTER
  else if strContains u "postgresql" || strContains u "postgres" || strContains u "pgsql" then some ResourceType.POSTGRESQL
  else if strContains u "mysql" then some ResourceType.MYSQL
  else if strContains u "sql" && !strContains u "cosmos" then some ResourceType.SQL_DATABASE
  else if strContains u "cosmos" || strContains u "documentdb" || strContains u "nosql" then some ResourceType.COSMOSDB
  else if strContains u "database" || strContains u "db" then some ResourceType.POSTGRESQL
  else none

/-- Tail of flows.py `ResourceFlows.validate_answer` after option
resolution: apply the custom `validation` predicate (returning the
configured error or the generic `"Invalid input."` on failure), then the
`transform` function (the stored value is the string itself when no
transform is defined). -/
def applyValidationAndTransform (q : Question) (answer : String) :
    Bool × Option String × Option Val :=
  match q.validation with
  | some f =>
      if f answer then
        (true, none, some (match q.transform with
          | some t => t answer
          | none => Val.vstr answer))
      else (false, some (q.error.getD "Invalid input."), none)
  | none =>
      (true, none, some (match q.transform with
        | some t => t answer
        | none => Val.vstr answer))

/-- flows.py `ResourceFlows.validate_answer`: trim, substitute the default
on empty input, resolve a numeric 1-based index against the option list
(out-of-range indices fall through), then case-insensitive literal match
normalizing to the canonical option casing; unmatched option input fails
with the options-list error; finally custom validation and transform.
Returns the `(is_valid, error_message, transformed_value)` triple. -/
def validate_answer (q : Question) (rawAnswer : String) :
    Bool × Option String × Option Val :=
  let answer0 := strTrim rawAnswer
  let answer1 := match q.default with
    | some d => if answer0 = "" then d else answer0
    | none => answer0
  match q.options with
  | some options =>
      let answer2 :=
        if pyIsDigit answer1 then
          let idx : Int := (strToNat answer1 : Int) - 1
          if 0 ≤ idx ∧ idx < (options.length : Int) then options.getD idx.toNat answer1
          else answer1
        else answer1
      match options.find? (fun opt => strLower opt == strLower answer2) with
      | some m =>
          if m = "" then
            -- Python tests `if matched:`, so an empty-string option is
            -- falsy and falls into the `elif` membership test, which then
            -- succeeds via that same option; the un-normalized answer is kept.
            applyValidationAndTransform q answer2
          else applyValidationAndTransform q m
      | none =>
          if (options.map strLower).contains (strLower answer2) then
            applyValidationAndTransform q answer2
          else (false, some ("Please select from: " ++ String.intercalate ", " options), none)
  | none => applyValidationAndTransform q answer1

/-- flows.py `ResourceFlows.build_config_from_answers`: the Config
Assembler.  One branch per resource type, back-filling the documented
default for every absent key; a resource type without a branch returns the
raw answer map unchanged. -/
def build_config_from_answers (resource_type : ResourceType)
    (answers : List (String × Val)) : List (String × Val) :=
  match resource_type with
  | ResourceType.VIRTUAL_MACHINE =>
      [("name", pyGet answers "name"),
       ("size", pyGetD answers "size" (Val.vstr "Standard_B2s")),
       ("os_image", pyGetD answers "os_image" (Val.vstr "Ubuntu2204")),
       ("os_disk_type", pyGetD answers "os_disk_type" (Val.vstr "Standard_LRS")),
       ("admin_username", pyGetD answers "admin_username" (Val.vstr "azureuser")),
       ("create_public_ip", pyGetD answers "create_public_ip" (Val.vbool true)),
       ("generate_ssh_key", Val.vbool true)]
  | ResourceType.VIRTUAL_NETWORK =>
      [("name", pyGet answers "name"),
       ("address_space", pyGetD answers "address_space" (Val.vstr "10.0.0.0/16")),
       ("subnets", Val.vlist (ValList.cons (Val.vdict
          (Dict.cons "name" (pyGetD answers "subnet_name" (Val.vstr "default"))
            (Dict.cons "address_prefix" (pyGetD answers "subnet_prefix" (Val.vstr "10.0.0.0/24"))
              Dict.nil))) ValList.nil))]
  | ResourceType.STORAGE_ACCOUNT =>
      [("name", pyGet answers "name"),
       ("sku", pyGetD answers "sku" (Val.vstr "Standard_LRS")),
       ("kind", pyGetD answers "kind" (Val.vstr "StorageV2")),
       ("access_tier", pyGetD answers "access_tier" (Val.vstr "Hot")),
       ("enable_https_only", Val.vbool true)]
  | ResourceType.AKS_CLUSTER =>
      [("name", pyGet answers "name"),
       ("dns_prefix", pyGetD answers "dns_prefix" (pyGet answers "name")),
       ("kubernetes_version", pyGetD answers "kubernetes_version" (Val.vstr "1.28")),
       ("node_count", pyGetD answers "node_count" (Val.vint 3)),
       ("node_vm_size", pyGetD answers "node_vm_size" (Val.vstr "Standard_D2s_v3")),
       ("network_plugin", pyGetD answers "network_plugin" (Val.vstr "azure")),
       ("enable_rbac", Val.vbool true)]
  | ResourceType.POSTGRESQL =>
      [("name", pyGet answers "name"),
       ("version", pyGetD answers "version" (Val.vstr "15")),
       ("sku", pyGetD answers "sku" (Val.vstr "Standard_B1ms")),
       ("storage_gb", pyGetD answers "storage_gb" (Val.vint 32)),
       ("admin_username", pyGetD answers "admin_username" (Val.vstr "pgadmin"))]
  | ResourceType.MYSQL =>
      [("name", pyGet answers "name"),
       ("version", pyGetD answers "version" (Val.vstr "8.0.21")),
       ("sku", pyGetD answers "sku" (Val.vstr "Standard_B1ms")),
       ("storage_gb", pyGetD answers "storage_gb" (Val.vint 32)),
       ("admin_username", pyGetD answers "admin_username" (Val.vstr "mysqladmin"))]
  | ResourceType.SQL_DATABASE =>
      [("name", pyGet answers "name"),
       ("server_name", pyGet answers "server_name"),
       ("tier", pyGetD answers "tier" (Val.vstr "Basic")),
       ("admin_username", pyGetD answers "admin_username" (Val.vstr "sqladmin"))]
  | ResourceType.COSMOSDB =>
      [("name", pyGet answers "name"),
       ("api_type", pyGetD answers "api_type" (Val.vstr "SQL")),
       ("consistency_level", pyGetD answers "consistency_level" (Val.vstr "Session")),
       ("enable_free_tier", pyGetD answers "enable_free_tier" (Val.vbool false))]
  | _ => answers

/-- main.py restart keywords checked by `process_message` before any
state-specific handling. -/
def restart_keywords : List String := ["restart", "reset", "start over", "new"]

/-- The resource options offered with the welcome / restart prompts. -/
def main_resource_options : List String :=
  ["Virtual Machine", "Virtual Network", "Storage Account", "AKS Cluster"]

/-- The extended options offered after a failed resource selection. -/
def all_resource_options : List String :=
  ["Virtual Machine", "Virtual Network", "Storage Account", "AKS Cluster",
   "PostgreSQL", "MySQL", "SQL Database", "Cosmos DB"]

/-- main.py `handle_region` popular-regions list used for index selection. -/
def popular_regions : List String :=
  ["eastus", "westus2", "westeurope", "northeurope", "southeastasia", "australiaeast"]

/-- A freshly created session (conversation.py `create_session` /
`get_or_create_session` / `reset_session`): state `INITIAL`, everything
else cleared. -/
def initial_session : ConversationSession := {}

/-- A session created through `POST /api/session` by an authenticated
user (main.py `create_session`): the principal metadata is stored into
`collected_params`. -/
def authed_session (user_id username : String) : ConversationSession :=
  { collected_params := [("_user_id", Val.vstr user_id), ("_username", Val.vstr username)] }

/-- The conversation cursor: main.py reads
`session.collected_params.get("_question_index", 0)`.  The cursor is only
ever written as a nonnegative int (`0` or `current_index + 1`), so reading
it through `Int.toNat` is the identity on every occurring value. -/
def question_index (params : List (String × Val)) : Nat :=
  match dictGet params "_question_index" with
  | some (Val.vint i) => i.toNat
  | _ => 0

/-- main.py `move_to_confirmation`: build the canonical config from the
collected parameters via the Config Assembler, store it, move to
`CONFIRMATION`.  The cost estimate and the summary text only feed the
response message and are omitted. -/
def move_to_confirmation (s : ConversationSession) :
    ConversationSession × ChatResponse :=
  let config :=
    match s.resource_type with
    | some rt => build_config_from_answers rt s.collected_params
    | none => s.collected_params
  ({ s with config := config, state := ConversationState.CONFIRMATION },
   { state := ConversationState.CONFIRMATION,
     options := some ["yes", "terraform", "no", "edit"] })

/-- main.py `get_next_config_question`: emit the question at the cursor,
or move to confirmation once the cursor has reached the end of the list. -/
def get_next_config_question (s : ConversationSession) :
    ConversationSession × ChatResponse :=
  let questions := get_questions_for_resource s.resource_type
  let current_index := question_index s.collected_params
  if current_index < questions.length then
    ((s : ConversationSession),
     { state := ConversationState.RESOURCE_CONFIG,
       options := (questions.getD current_index { key := "", question := "" }).options })
  else move_to_confirmation s

/-- main.py `handle_initial_state`: consume no input, emit the welcome
prompt, advance unconditionally to `RESOURCE_SELECTION`. -/
def handle_initial_state (s : ConversationSession) :
    ConversationSession × ChatResponse :=
  ({ s with state := ConversationState.RESOURCE_SELECTION },
   { state := ConversationState.RESOURCE_SELECTION, options := some main_resource_options })

/-- main.py `handle_resource_selection`. -/
def handle_resource_selection (s : ConversationSession) (user_message : String) :
    ConversationSession × ChatResponse :=
  match parse_resource_selection user_message with
  | none =>
      (s, { state := ConversationState.RESOURCE_SELECTION, options := some all_resource_options })
  | some rt =>
      ({ s with resource_type := some rt, state := ConversationState.SUBSCRIPTION },
       { state := ConversationState.SUBSCRIPTION })

/-- main.py `handle_subscription`: accept `"default"` (substituting the
`AZURE_SUBSCRIPTION_ID` environment variable, re-prompting when it is
unset) or any literal of at least 32 characters. -/
def handle_subscription (env : SysEnv) (s : ConversationSession) (user_message : String) :
    ConversationSession × ChatResponse :=
  let sub_id := strTrim user_message
  if strLower sub_id = "default" then
    let sub_id := env.azureSubscriptionId
    if sub_id = "" then (s, { state := ConversationState.SUBSCRIPTION })
    else if sub_id.length < 32 then (s, { state := ConversationState.SUBSCRIPTION })
    else ({ s with subscription_id := some sub_id, state := ConversationState.RESOURCE_GROUP },
          { state := ConversationState.RESOURCE_GROUP })
  else if sub_id.length < 32 then (s, { state := ConversationState.SUBSCRIPTION })
  else ({ s with subscription_id := some sub_id, state := ConversationState.RESOURCE_GROUP },
        { state := ConversationState.RESOURCE_GROUP })

/-- main.py `handle_resource_group`: `new:<name>` creates a new group,
a bare name uses an existing one; an empty name re-prompts. -/
def handle_resource_group (s : ConversationSession) (user_message : String) :
    ConversationSession × ChatResponse :=
  let rg_input := strTrim user_message
  let create_new := strStartsWith (strLower rg_input) "new:"
  let rg_name := if create_new then strTrim (strDrop rg_input 4) else rg_input
  if rg_name = "" then (s, { state := ConversationState.RESOURCE_GROUP })
  else
    ({ s with resource_group := some rg_name, create_new_rg := create_new,
              state := ConversationState.REGION },
     { state := ConversationState.REGION, options := some popular_regions })

/-- main.py `handle_region`: numeric index into the popular list or any
recognized region name; on success reset the cursor to 0, enter
`RESOURCE_CONFIG` and immediately emit the first question. -/
def handle_region (s : ConversationSession) (user_message : String) :
    ConversationSession × ChatResponse :=
  let region0 := strLower (strTrim user_message)
  let region :=
    if pyIsDigit region0 then
      let idx : Int := (strToNat region0 : Int) - 1
      if 0 ≤ idx ∧ idx < (popular_regions.length : Int) then
        popular_regions.getD idx.toNat region0
      else region0
    else region0
  if !(AZURE_REGIONS.contains region) then
    (s, { state := ConversationState.REGION, options := some popular_regions })
  else
    get_next_config_question
      { s with region := some region, state := ConversationState.RESOURCE_CONFIG,
               collected_params := dictSet s.collected_params "_question_index" (Val.vint 0) }

/-- main.py `handle_resource_config`: validate the answer to the current
question (substituting the default on empty input), store the transformed
value and advance the cursor on success, re-ask on failure, and move to
confirmation when the cursor is already at the end. -/
def handle_resource_config (s : ConversationSession) (user_message : String) :
    ConversationSession × ChatResponse :=
  let questions := get_questions_for_resource s.resource_type
  let current_index := question_index s.collected_params
  if current_index < questions.length then
    let question := questions.getD current_index { key := "", question := "" }
    let user_message :=
      if strTrim user_message = "" ∧ question.default.isSome then
        question.default.getD ""
      else user_message
    let result := validate_answer question user_message
    if result.1 then
      let stored := dictSet s.collected_params question.key (result.2.2.getD Val.vnone)
      let advanced := dictSet stored "_question_index" (Val.vint (current_index + 1))
      get_next_config_question { s with collected_params := advanced }
    else (s, { state := ConversationState.RESOURCE_CONFIG, options := question.options })
  else move_to_confirmation s

/-- main.py `handle_confirmation`: the four case-insensitive intents. -/
def handle_confirmation (s : ConversationSession) (user_message : String) :
    ConversationSession × ChatResponse :=
  let choice := strLower (strTrim user_message)
  if ["yes", "y", "create", "proceed"].contains choice then
    ({ s with execution_method := some "azure_sdk",
              state := ConversationState.EXECUTION_METHOD },
     { state := ConversationState.CREATING })
  else if ["terraform", "tf"].contains choice then
    -- the Terraform generator is a pure external collaborator; only the
    -- state transition is modelled
    ({ s with state := ConversationState.COMPLETED },
     { state := ConversationState.COMPLETED })
  else if ["no", "n", "cancel"].contains choice then
    (initial_session,
     { state := ConversationState.RESOURCE_SELECTION, options := some main_resource_options })
  else if ["edit", "modify", "change"].contains choice then
    get_next_config_question
      { s with collected_params := [("_question_index", Val.vint 0)],
               state := ConversationState.RESOURCE_CONFIG }
  else
    (s, { state := ConversationState.CONFIRMATION,
          options := some ["yes", "terraform", "no", "edit"] })

/-- main.py `handle_execution_method`: run the provisioning collaborators;
success moves to `COMPLETED`, a reported failure or a raised exception
moves to `ERROR`.  The outcome is supplied through `SysEnv.execSuccess`;
nothing else in the session is touched on either path. -/
def handle_execution_method (env : SysEnv) (s : ConversationSession) :
    ConversationSession × ChatResponse :=
  if env.execSuccess then
    ({ s with state := ConversationState.COMPLETED },
     { state := ConversationState.COMPLETED })
  else
    ({ s with state := ConversationState.ERROR },
     { state := ConversationState.ERROR })

/-- main.py `handle_completed_state`: restart-class keywords reset the
session; anything else is a static reminder. -/
def handle_completed_state (s : ConversationSession) (user_message : String) :
    ConversationSession × ChatResponse :=
  if ["restart", "new", "another", "reset"].contains (strLower user_message) then
    (initial_session,
     { state := ConversationState.RESOURCE_SELECTION, options := some main_resource_options })
  else (s, { state := ConversationState.COMPLETED })

/-- main.py `process_message`: the global restart rule first, then the
state dispatch.  `CREATING` and `ERROR` fall into the defensive default,
which answers without changing the session. -/
def process_message (env : SysEnv) (s : ConversationSession) (user_message : String) :
    ConversationSession × ChatResponse :=
  if restart_keywords.contains (strLower user_message) then
    (initial_session,
     { state := ConversationState.RESOURCE_SELECTION, options := some main_resource_options })
  else
    match s.state with
    | ConversationState.INITIAL => handle_initial_state s
    | ConversationState.RESOURCE_SELECTION => handle_resource_selection s user_message
    | ConversationState.SUBSCRIPTION => handle_subscription env s user_message
    | ConversationState.RESOURCE_GROUP => handle_resource_group s user_message
    | ConversationState.REGION => handle_region s user_message
    | ConversationState.RESOURCE_CONFIG => handle_resource_config s user_message
    | ConversationState.CONFIRMATION => handle_confirmation s user_message
    | ConversationState.EXECUTION_METHOD => handle_execution_method env s
    | ConversationState.COMPLETED => handle_completed_state s user_message
    | _ => (s, { state := s.state })

/-- main.py `chat` endpoint: the inbound message is stripped before
`process_message` runs. -/
def chat_step (env : SysEnv) (s : ConversationSession) (message : String) :
    ConversationSession × ChatResponse :=
  process_message env s (strTrim message)

/-- Fold a list of chat messages through the state machine, returning the
final stored session. -/
def run_messages (env : SysEnv) (s : ConversationSession) (msgs : List String) :
    ConversationSession :=
  msgs.foldl (fun acc m => (chat_step env acc m).1) s

/-- Sessions reachable by the backend: a fresh session (with or without
the authenticated-principal metadata) followed by any number of processed
messages under any external conditions. -/
inductive Reachable : ConversationSession → Prop where
  | init : Reachable initial_session
  | auth (user_id username : String) : Reachable (authed_session user_id username)
  | step (env : SysEnv) (s : ConversationSession) (m : String) :
      Reachable s → Reachable (process_message env s m).1

/-- Sessions reachable without the stored state ever having been
`CONFIRMATION`: used to express "before confirmation is reached". -/
inductive ReachableNoConf : ConversationSession → Prop where
  | init : ReachableNoConf initial_session
  | auth (user_id username : String) : ReachableNoConf (authed_session user_id username)
  | step (env : SysEnv) (s : ConversationSession) (m : String) :
      ReachableNoConf s →
      (process_message env s m).1.state ≠ ConversationState.CONFIRMATION →
      ReachableNoConf (process_message env s m).1

/-- The config value computed at confirmation time (main.py
`move_to_confirmation`): the Config Assembler on the collected parameters,
or the raw parameters when no resource type is set. -/
def assemble_config (s : ConversationSession) : List (String × Val) :=
  match s.resource_type with
  | some rt => build_config_from_answers rt s.collected_params
  | none => s.collected_params

lemma dictGet_dictSet_self (d : List (String × Val)) (k : String) (v : Val) :
    dictGet (dictSet d k v) k = some v := by
  induction d with
  | nil => simp [dictGet, dictSet]
  | cons hd tl ih =>
      obtain ⟨k1, v1⟩ := hd
      by_cases h : k1 = k <;> simp [dictGet, dictSet, h, ih]

lemma question_index_dictSet_cursor (p : List (String × Val)) (n : Nat) :
    question_index (dictSet p "_question_index" (Val.vint n)) = n := by
  simp [question_index, dictGet_dictSet_self]

lemma move_to_confirmation_fst (s : ConversationSession) :
    (move_to_confirmation s).1 =
      { s with config := assemble_config s, state := ConversationState.CONFIRMATION } := by
  rfl

lemma get_next_config_question_fst (s : ConversationSession) :
    (get_next_config_question s).1 = s ∨
    (get_next_config_question s).1 =
      { s with config := assemble_config s, state := ConversationState.CONFIRMATION } := by
  simp only [get_next_config_question]
  split
  · exact Or.inl rfl
  · exact Or.inr (move_to_confirmation_fst s)

lemma assemble_config_update (s : ConversationSession) (c : List (String × Val))
    (st : ConversationState) :
    assemble_config { s with config := c, state := st } = assemble_config s := by
  rfl

lemma handle_initial_state_fst (s : ConversationSession) :
    (handle_initial_state s).1 = { s with state := ConversationState.RESOURCE_SELECTION } := by
  rfl

lemma handle_resource_selection_fst (s : ConversationSession) (m : String) :
    (handle_resource_selection s m).1 = s ∨
    ∃ rt, (handle_resource_selection s m).1 =
      { s with resource_type := some rt, state := ConversationState.SUBSCRIPTION } := by
  unfold handle_resource_selection
  cases parse_resource_selection m
  · exact Or.inl rfl
  · exact Or.inr ⟨_, rfl⟩

lemma handle_subscription_fst (env : SysEnv) (s : ConversationSession) (m : String) :
    (handle_subscription env s m).1 = s ∨
    ∃ sub, (handle_subscription env s m).1 =
      { s with subscription_id := some sub, state := ConversationState.RESOURCE_GROUP } := by
  simp only [handle_subscription]
  split
  · split
    · exact Or.inl rfl
    · split
      · exact Or.inl rfl
      · exact Or.inr ⟨_, rfl⟩
  · split
    · exact Or.inl rfl
    · exact Or.inr ⟨_, rfl⟩

lemma handle_resource_group_fst (s : ConversationSession) (m : String) :
    (handle_resource_group s m).1 = s ∨
    ∃ rg cn, (handle_resource_group s m).1 =
      { s with resource_group := some rg, create_new_rg := cn,
               state := ConversationState.REGION } := by
  simp only [handle_resource_group]
  repeat' split
  all_goals first
    | exact Or.inl rfl
    | exact Or.inr ⟨_, _, rfl⟩

lemma handle_region_fst (s : ConversationSession) (m : String) :
    (handle_region s m).1 = s ∨
    ∃ reg, (handle_region s m).1 =
      (get_next_config_question
        { s with region := some reg, state := ConversationState.RESOURCE_CONFIG,
                 collected_params :=
                   dictSet s.collected_params "_question_index" (Val.vint 0) }).1 := by
  simp only [handle_region]
  repeat' split
  all_goals first
    | exact Or.inl rfl
    | exact Or.inr ⟨_, rfl⟩

lemma handle_resource_config_fst (s : ConversationSession) (m : String) :
    (handle_resource_config s m).1 = s ∨
    (handle_resource_config s m).1 = (move_to_confirmation s).1 ∨
    ∃ k v, question_index s.collected_params <
        (get_questions_for_resource s.resource_type).length ∧
      (handle_resource_config s m).1 =
        (get_next_config_question
          { s with collected_params := dictSet (dictSet s.collected_params k v) "_question_index" (Val.vint (question_index s.collected_params + 1)) }).1 := by
  simp only [handle_resource_config]
  split
  next hlt =>
    repeat' split
    all_goals first
      | exact Or.inl rfl
      | exact Or.inr (Or.inr ⟨_, _, hlt, rfl⟩)
  next => exact Or.inr (Or.inl rfl)

lemma handle_confirmation_fst (s : ConversationSession) (m : String) :
    (handle_confirmation s m).1 = s ∨
    (handle_confirmation s m).1 =
      { s with execution_method := some "azure_sdk",
               state := ConversationState.EXECUTION_METHOD } ∨
    (handle_confirmation s m).1 = { s with state := ConversationState.COMPLETED } ∨
    (handle_confirmation s m).1 = initial_session ∨
    (handle_confirmation s m).1 =
      (get_next_config_question
        { s with collected_params := [("_question_index", Val.vint 0)],
                 state := ConversationState.RESOURCE_CONFIG }).1 := by
  simp only [handle_confirmation]
  split
  · exact Or.inr (Or.inl rfl)
  · split
    · exact Or.inr (Or.inr (Or.inl rfl))
    · split
      · exact Or.inr (Or.inr (Or.inr (Or.inl rfl)))
      · split
        · exact Or.inr (Or.inr (Or.inr (Or.inr rfl)))
        · exact Or.inl rfl

lemma handle_execution_method_fst (env : SysEnv) (s : ConversationSession) :
    (handle_execution_method env s).1 = { s with state := ConversationState.COMPLETED } ∨
    (handle_execution_method env s).1 = { s with state := ConversationState.ERROR } := by
  simp only [handle_execution_method]
  split
  · exact Or.inl rfl
  · exact Or.inr rfl

lemma handle_completed_state_fst (s : ConversationSession) (m : String) :
    (handle_completed_state s m).1 = initial_session ∨
    (handle_completed_state s m).1 = s := by
  simp only [handle_completed_state]
  split
  · exact Or.inl rfl
  · exact Or.inr rfl

/-- Exhaustive characterization of the stored-session effect of one
`process_message` step, used to establish the session invariants. -/
lemma process_message_cases (env : SysEnv) (s : ConversationSession) (m : String) :
    (process_message env s m).1 = initial_session ∨
    (process_message env s m).1 = s ∨
    (s.state = ConversationState.INITIAL ∧
      (process_message env s m).1 = { s with state := ConversationState.RESOURCE_SELECTION }) ∨
    (s.state = ConversationState.RESOURCE_SELECTION ∧
      ∃ rt, (process_message env s m).1 =
        { s with resource_type := some rt, state := ConversationState.SUBSCRIPTION }) ∨
    (∃ sub, (process_message env s m).1 =
      { s with subscription_id := some sub, state := ConversationState.RESOURCE_GROUP }) ∨
    (∃ rg cn, (process_message env s m).1 =
      { s with resource_group := some rg, create_new_rg := cn, state := ConversationState.REGION }) ∨
    (∃ reg, (process_message env s m).1 =
      (get_next_config_question
        { s with region := some reg, state := ConversationState.RESOURCE_CONFIG,
                 collected_params := dictSet s.collected_params "_question_index" (Val.vint 0) }).1) ∨
    (s.state = ConversationState.RESOURCE_CONFIG ∧
      ∃ k v, question_index s.collected_params <
          (get_questions_for_resource s.resource_type).length ∧
        (process_message env s m).1 =
          (get_next_config_question
            { s with collected_params := dictSet (dictSet s.collected_params k v) "_question_index" (Val.vint (question_index s.collected_params + 1)) }).1) ∨
    (process_message env s m).1 = (move_to_confirmation s).1 ∨
    (process_message env s m).1 =
      { s with execution_method := some "azure_sdk",
               state := ConversationState.EXECUTION_METHOD } ∨
    (process_message env s m).1 = { s with state := ConversationState.COMPLETED } ∨
    (process_message env s m).1 =
      (get_next_config_question
        { s with collected_params := [("_question_index", Val.vint 0)],
                 state := ConversationState.RESOURCE_CONFIG }).1 ∨
    (process_message env s m).1 = { s with state := ConversationState.ERROR } := by
  unfold process_message
  by_cases hk : restart_keywords.contains (strLower m) = true
  · rw [if_pos hk]
    exact Or.inl rfl
  · rw [if_neg hk]
    obtain ⟨st, rt0, sub0, rg0, cn0, reg0, cfg0, em0, params0⟩ := s
    cases st
    · exact Or.inr (Or.inr (Or.inl ⟨rfl, handle_initial_state_fst _⟩))
    · rcases handle_resource_selection_fst _ m with h | ⟨rt, h⟩
      · exact Or.inr (Or.inl h)
      · exact Or.inr (Or.inr (Or.inr (Or.inl ⟨rfl, rt, h⟩)))
    · rcases handle_subscription_fst env _ m with h | ⟨sub, h⟩
      · exact Or.inr (Or.inl h)
      · exact Or.inr (Or.inr (Or.inr (Or.inr (Or.inl ⟨sub, h⟩))))
    · rcases handle_resource_group_fst _ m with h | ⟨rg, cn, h⟩
      · exact Or.inr (Or.inl h)
      · exact Or.inr (Or.inr (Or.inr (Or.inr (Or.inr (Or.inl ⟨rg, cn, h⟩)))))
    · rcases handle_region_fst _ m with h | ⟨reg, h⟩
      · exact Or.inr (Or.inl h)
      · exact Or.inr (Or.inr (Or.inr (Or.inr (Or.inr (Or.inr (Or.inl ⟨reg, h⟩))))))
    · rcases handle_resource_config_fst _ m with h | h | ⟨k, v, hlt, h⟩
      · exact Or.inr (Or.inl h)
      · exact Or.inr (Or.inr (Or.inr (Or.inr (Or.inr (Or.inr (Or.inr (Or.inr (Or.inl h))))))))
      · exact Or.inr (Or.inr (Or.inr (Or.inr (Or.inr (Or.inr (Or.inr (Or.inl ⟨rfl, k, v, hlt, h⟩)))))))
    · rcases handle_confirmation_fst _ m with h | h | h | h | h
      · exact Or.inr (Or.inl h)
      · exact Or.inr (Or.inr (Or.inr (Or.inr (Or.inr (Or.inr (Or.inr (Or.inr (Or.inr (Or.inl h)))))))))
      · exact Or.inr (Or.inr (Or.inr (Or.inr (Or.inr (Or.inr (Or.inr (Or.inr (Or.inr (Or.inr (Or.inl h))))))))))
      · exact Or.inl h
      · exact Or.inr (Or.inr (Or.inr (Or.inr (Or.inr (Or.inr (Or.inr (Or.inr (Or.inr (Or.inr (Or.inr (Or.inl h)))))))))))
    · rcases handle_execution_method_fst env _ with h | h
      · exact Or.inr (Or.inr (Or.inr (Or.inr (Or.inr (Or.inr (Or.inr (Or.inr (Or.inr (Or.inr (Or.inl h))))))))))
      · exact Or.inr (Or.inr (Or.inr (Or.inr (Or.inr (Or.inr (Or.inr (Or.inr (Or.inr (Or.inr (Or.inr (Or.inr h)))))))))))
    · exact Or.inr (Or.inl rfl)
    · rcases handle_completed_state_fst _ m with h | h
      · exact Or.inl h
      · exact Or.inr (Or.inl h)
    · exact Or.inr (Or.inl rfl)

/-- The cursor stored in `collected_params` (when present) is an integer
within `[0, len(questions_for(resource_type))]`. -/
def cursor_in_bounds (s : ConversationSession) : Prop :=
  match dictGet s.collected_params "_question_index" with
  | none => True
  | some (Val.vint i) =>
      0 ≤ i ∧ i ≤ ((get_questions_for_resource s.resource_type).length : Int)
  | some _ => False

/-- Inductive invariant: the cursor is in bounds, and no cursor exists yet
while the session sits in `INITIAL` or `RESOURCE_SELECTION` (so changing
the resource type cannot leave a stale out-of-range cursor behind). -/
def session_inv (s : ConversationSession) : Prop :=
  cursor_in_bounds s ∧
  ((s.state = ConversationState.INITIAL ∨
    s.state = ConversationState.RESOURCE_SELECTION) →
    dictGet s.collected_params "_question_index" = none)

lemma cursor_in_bounds_of_none (s : ConversationSession)
    (h : dictGet s.collected_params "_question_index" = none) :
    cursor_in_bounds s := by
  unfold cursor_in_bounds
  rw [h]
  exact trivial

lemma cursor_in_bounds_of_cursor (s : ConversationSession) (i : Int)
    (h : dictGet s.collected_params "_question_index" = some (Val.vint i))
    (h0 : 0 ≤ i)
    (h1 : i ≤ ((get_questions_for_resource s.resource_type).length : Int)) :
    cursor_in_bounds s := by
  unfold cursor_in_bounds
  rw [h]
  exact ⟨h0, h1⟩

lemma session_inv_initial : session_inv initial_session :=
  ⟨trivial, fun _ => rfl⟩

lemma session_inv_authed (user_id username : String) :
    session_inv (authed_session user_id username) := by
  refine ⟨cursor_in_bounds_of_none _ ?_, fun _ => ?_⟩ <;>
    simp [authed_session, dictGet]

lemma session_inv_step (env : SysEnv) (s : ConversationSession) (m : String)
    (h : session_inv s) : session_inv (process_message env s m).1 := by
  rcases process_message_cases env s m with
    h1 | h1 | ⟨hst, h1⟩ | ⟨hst, rt, h1⟩ | ⟨sub, h1⟩ | ⟨rg, cn, h1⟩ | ⟨reg, h1⟩ |
    ⟨hst, k, v, hlt, h1⟩ | h1 | h1 | h1 | h1 | h1
  · rw [h1]; exact session_inv_initial
  · rw [h1]; exact h
  · rw [h1]
    exact ⟨h.1, fun _ => h.2 (Or.inl hst)⟩
  · rw [h1]
    have hn := h.2 (Or.inr hst)
    exact ⟨cursor_in_bounds_of_none _ hn, fun _ => hn⟩
  · rw [h1]
    exact ⟨h.1, fun hc => by rcases hc with hc | hc <;> exact ConversationState.noConfusion hc⟩
  · rw [h1]
    exact ⟨h.1, fun hc => by rcases hc with hc | hc <;> exact ConversationState.noConfusion hc⟩
  · rcases get_next_config_question_fst
      { s with region := some reg, state := ConversationState.RESOURCE_CONFIG,
               collected_params := dictSet s.collected_params "_question_index" (Val.vint 0) }
      with h2 | h2 <;> rw [h1, h2] <;>
      refine ⟨cursor_in_bounds_of_cursor _ 0 (dictGet_dictSet_self _ _ _) le_rfl
        (by exact_mod_cast Nat.zero_le _), fun hc => by rcases hc with hc | hc <;> exact ConversationState.noConfusion hc⟩
  · rcases get_next_config_question_fst
      { s with collected_params := dictSet (dictSet s.collected_params k v) "_question_index" (Val.vint (question_index s.collected_params + 1)) }
      with h2 | h2 <;> rw [h1, h2]
    · refine ⟨cursor_in_bounds_of_cursor _ _ (dictGet_dictSet_self _ _ _)
        (by exact_mod_cast Nat.zero_le _) (by exact_mod_cast hlt), ?_⟩
      intro hc
      rcases (show s.state = ConversationState.INITIAL ∨
          s.state = ConversationState.RESOURCE_SELECTION from hc) with hc2 | hc2 <;>
        rw [hst] at hc2 <;> exact ConversationState.noConfusion hc2
    · refine ⟨cursor_in_bounds_of_cursor _ _ (dictGet_dictSet_self _ _ _)
        (by exact_mod_cast Nat.zero_le _) (by exact_mod_cast hlt),
        fun hc => by rcases hc with hc | hc <;> exact ConversationState.noConfusion hc⟩
  · rw [h1]
    exact ⟨h.1, fun hc => by rcases hc with hc | hc <;> exact ConversationState.noConfusion hc⟩
  · rw [h1]
    exact ⟨h.1, fun hc => by rcases hc with hc | hc <;> exact ConversationState.noConfusion hc⟩
  · rw [h1]
    exact ⟨h.1, fun hc => by rcases hc with hc | hc <;> exact ConversationState.noConfusion hc⟩
  · rcases get_next_config_question_fst
      { s with collected_params := [("_question_index", Val.vint 0)],
               state := ConversationState.RESOURCE_CONFIG }
      with h2 | h2 <;> rw [h1, h2] <;>
      refine ⟨cursor_in_bounds_of_cursor _ 0
        (show dictGet [("_question_index", Val.vint 0)] "_question_index" = some (Val.vint 0) from rfl)
        le_rfl (by exact_mod_cast Nat.zero_le _), fun hc => by rcases hc with hc | hc <;> exact ConversationState.noConfusion hc⟩
  · rw [h1]
    exact ⟨h.1, fun hc => by rcases hc with hc | hc <;> exact ConversationState.noConfusion hc⟩

lemma session_inv_reachable (s : ConversationSession) (h : Reachable s) :
    session_inv s := by
  induction h with
  | init => exact session_inv_initial
  | auth user_id username => exact session_inv_authed user_id username
  | step env s2 m hs ih => exact session_inv_step env s2 m ih

lemma gncq_collected_params (x : ConversationSession) :
    (get_next_config_question x).1.collected_params = x.collected_params := by
  rcases get_next_config_question_fst x with h | h
  · rw [h]
  · rw [h]

lemma question_index_dictSet_cursor_int (p : List (String × Val)) (i : Int) :
    question_index (dictSet p "_question_index" (Val.vint i)) = i.toNat := by
  simp [question_index, dictGet_dictSet_self]

/-- One step advances the cursor by at most one. -/
lemma question_index_step_le (env : SysEnv) (s : ConversationSession) (m : String) :
    question_index (process_message env s m).1.collected_params ≤
      question_index s.collected_params + 1 := by
  rcases process_message_cases env s m with
    h1 | h1 | ⟨hst, h1⟩ | ⟨hst, rt, h1⟩ | ⟨sub, h1⟩ | ⟨rg, cn, h1⟩ | ⟨reg, h1⟩ |
    ⟨hst, k, v, hlt, h1⟩ | h1 | h1 | h1 | h1 | h1
  · rw [h1]; exact Nat.zero_le _
  · rw [h1]; exact Nat.le_succ _
  · rw [h1]; exact Nat.le_succ _
  · rw [h1]; exact Nat.le_succ _
  · rw [h1]; exact Nat.le_succ _
  · rw [h1]; exact Nat.le_succ _
  · rw [h1, gncq_collected_params]
    have := question_index_dictSet_cursor_int s.collected_params 0
    simp only [show ((0 : Int)).toNat = 0 from rfl] at this
    rw [show ({ s with region := some reg, state := ConversationState.RESOURCE_CONFIG, collected_params := dictSet s.collected_params "_question_index" (Val.vint 0) } : ConversationSession).collected_params = dictSet s.collected_params "_question_index" (Val.vint 0) from rfl]
    rw [this]
    exact Nat.zero_le _
  · rw [h1, gncq_collected_params]
    rw [show ({ s with collected_params := dictSet (dictSet s.collected_params k v) "_question_index" (Val.vint (question_index s.collected_params + 1)) } : ConversationSession).collected_params = dictSet (dictSet s.collected_params k v) "_question_index" (Val.vint (question_index s.collected_params + 1)) from rfl]
    rw [question_index_dictSet_cursor_int]
    omega
  · rw [h1]; exact Nat.le_succ _
  · rw [h1]; exact Nat.le_succ _
  · rw [h1]; exact Nat.le_succ _
  · rw [h1, gncq_collected_params]
    exact Nat.zero_le _
  · rw [h1]; exact Nat.le_succ _

/-- Entering `RESOURCE_CONFIG` from any other state sets the cursor to 0. -/
lemma question_index_enter_config (env : SysEnv) (s : ConversationSession) (m : String)
    (hfrom : s.state ≠ ConversationState.RESOURCE_CONFIG)
    (hto : (process_message env s m).1.state = ConversationState.RESOURCE_CONFIG) :
    question_index (process_message env s m).1.collected_params = 0 := by
  rcases process_message_cases env s m with
    h1 | h1 | ⟨hst, h1⟩ | ⟨hst, rt, h1⟩ | ⟨sub, h1⟩ | ⟨rg, cn, h1⟩ | ⟨reg, h1⟩ |
    ⟨hst, k, v, hlt, h1⟩ | h1 | h1 | h1 | h1 | h1
  · rw [h1] at hto; exact ConversationState.noConfusion hto
  · rw [h1] at hto; exact absurd hto hfrom
  · rw [h1] at hto; exact ConversationState.noConfusion hto
  · rw [h1] at hto; exact ConversationState.noConfusion hto
  · rw [h1] at hto; exact ConversationState.noConfusion hto
  · rw [h1] at hto; exact ConversationState.noConfusion hto
  · rcases get_next_config_question_fst
      { s with region := some reg, state := ConversationState.RESOURCE_CONFIG,
               collected_params := dictSet s.collected_params "_question_index" (Val.vint 0) }
      with h2 | h2
    · rw [h1, h2]
      have := question_index_dictSet_cursor_int s.collected_params 0
      simpa using this
    · rw [h1, h2] at hto
      exact ConversationState.noConfusion hto
  · exact absurd hst hfrom
  · rw [h1] at hto; exact ConversationState.noConfusion hto
  · rw [h1] at hto; exact ConversationState.noConfusion hto
  · rw [h1] at hto; exact ConversationState.noConfusion hto
  · rcases get_next_config_question_fst
      { s with collected_params := [("_question_index", Val.vint 0)],
               state := ConversationState.RESOURCE_CONFIG }
      with h2 | h2
    · rw [h1, h2]; rfl
    · rw [h1, h2] at hto
      exact ConversationState.noConfusion hto
  · rw [h1] at hto; exact ConversationState.noConfusion hto

/-- One step either leaves `config` unchanged, clears it (session reset),
or — exactly at the transition into `CONFIRMATION` — stores the Config
Assembler output for the resulting resource type and collected answers. -/
lemma config_step (env : SysEnv) (s : ConversationSession) (m : String) :
    (process_message env s m).1.config = s.config ∨
    (process_message env s m).1.config = [] ∨
    ((process_message env s m).1.state = ConversationState.CONFIRMATION ∧
     (process_message env s m).1.config = assemble_config (process_message env s m).1) := by
  rcases process_message_cases env s m with
    h1 | h1 | ⟨hst, h1⟩ | ⟨hst, rt, h1⟩ | ⟨sub, h1⟩ | ⟨rg, cn, h1⟩ | ⟨reg, h1⟩ |
    ⟨hst, k, v, hlt, h1⟩ | h1 | h1 | h1 | h1 | h1
  · rw [h1]; exact Or.inr (Or.inl rfl)
  · rw [h1]; exact Or.inl rfl
  · rw [h1]; exact Or.inl rfl
  · rw [h1]; exact Or.inl rfl
  · rw [h1]; exact Or.inl rfl
  · rw [h1]; exact Or.inl rfl
  · rcases get_next_config_question_fst
      { s with region := some reg, state := ConversationState.RESOURCE_CONFIG,
               collected_params := dictSet s.collected_params "_question_index" (Val.vint 0) }
      with h2 | h2 <;> rw [h1, h2]
    · exact Or.inl rfl
    · exact Or.inr (Or.inr ⟨rfl, rfl⟩)
  · rcases get_next_config_question_fst
      { s with collected_params := dictSet (dictSet s.collected_params k v) "_question_index" (Val.vint (question_index s.collected_params + 1)) }
      with h2 | h2 <;> rw [h1, h2]
    · exact Or.inl rfl
    · exact Or.inr (Or.inr ⟨rfl, rfl⟩)
  · rw [h1]
    exact Or.inr (Or.inr ⟨rfl, rfl⟩)
  · rw [h1]; exact Or.inl rfl
  · rw [h1]; exact Or.inl rfl
  · rcases get_next_config_question_fst
      { s with collected_params := [("_question_index", Val.vint 0)],
               state := ConversationState.RESOURCE_CONFIG }
      with h2 | h2 <;> rw [h1, h2]
    · exact Or.inl rfl
    · exact Or.inr (Or.inr ⟨rfl, rfl⟩)
  · rw [h1]; exact Or.inl rfl

/-- Before `CONFIRMATION` is first reached, `config` stays empty. -/
lemma config_empty_before_confirmation (s : ConversationSession)
    (h : ReachableNoConf s) : s.config = [] := by
  induction h with
  | init => rfl
  | auth user_id username => rfl
  | step env s2 m hs hne ih =>
      rcases config_step env s2 m with h1 | h1 | ⟨h2, _⟩
      · exact h1.trans ih
      · exact h1
      · exact absurd h2 hne

/-- The storage access-tier question: the question in the Question Schema
Registry whose option list is `ACCESS_TIERS = ["Hot", "Cool"]`. -/
def access_tier_question : Question :=
  STORAGE_QUESTIONS.getD 3 { key := "", question := "" }

/-- C3: for the Answer Validator on the question with
`options = ["Hot", "Cool"]`: input "1" resolves to "Hot", input "2"
resolves to "Cool", input "hot" resolves to "Hot" (case-insensitive
literal match normalized to canonical casing), and input "3" is an
out-of-range index that falls through to literal matching, fails, and
returns the error listing all options in their defined order. -/
theorem C3_numeric_option_resolution :
    access_tier_question.options = some ["Hot", "Cool"] ∧
    validate_answer access_tier_question "1" = (true, none, some (Val.vstr "Hot")) ∧
    validate_answer access_tier_question "2" = (true, none, some (Val.vstr "Cool")) ∧
    validate_answer access_tier_question "hot" = (true, none, some (Val.vstr "Hot")) ∧
    validate_answer access_tier_question "3" =
      (false, some "Please select from: Hot, Cool", none) := by
  refine ⟨rfl, ?_, ?_, ?_, ?_⟩ <;> decide

/-- The value of each Config Assembler branch on an empty answer map: every
key the branch references, carrying its documented default where one exists
(`name` — and the VM-independent `server_name`/`dns_prefix` — have no
default and come out as `None`); types without a branch return the raw
(empty) answer map. -/
def empty_answer_config : ResourceType → List (String × Val)
  | ResourceType.VIRTUAL_MACHINE =>
      [("name", Val.vnone), ("size", Val.vstr "Standard_B2s"),
       ("os_image", Val.vstr "Ubuntu2204"), ("os_disk_type", Val.vstr "Standard_LRS"),
       ("admin_username", Val.vstr "azureuser"), ("create_public_ip", Val.vbool true),
       ("generate_ssh_key", Val.vbool true)]
  | ResourceType.VIRTUAL_NETWORK =>
      [("name", Val.vnone), ("address_space", Val.vstr "10.0.0.0/16"),
       ("subnets", Val.vlist (ValList.cons (Val.vdict
          (Dict.cons "name" (Val.vstr "default")
            (Dict.cons "address_prefix" (Val.vstr "10.0.0.0/24") Dict.nil))) ValList.nil))]
  | ResourceType.STORAGE_ACCOUNT =>
      [("name", Val.vnone), ("sku", Val.vstr "Standard_LRS"),
       ("kind", Val.vstr "StorageV2"), ("access_tier", Val.vstr "Hot"),
       ("enable_https_only", Val.vbool true)]
  | ResourceType.AKS_CLUSTER =>
      [("name", Val.vnone), ("dns_prefix", Val.vnone),
       ("kubernetes_version", Val.vstr "1.28"), ("node_count", Val.vint 3),
       ("node_vm_size", Val.vstr "Standard_D2s_v3"), ("network_plugin", Val.vstr "azure"),
       ("enable_rbac", Val.vbool true)]
  | ResourceType.POSTGRESQL =>
      [("name", Val.vnone), ("version", Val.vstr "15"), ("sku", Val.vstr "Standard_B1ms"),
       ("storage_gb", Val.vint 32), ("admin_username", Val.vstr "pgadmin")]
  | ResourceType.MYSQL =>
      [("name", Val.vnone), ("version", Val.vstr "8.0.21"), ("sku", Val.vstr "Standard_B1ms"),
       ("storage_gb", Val.vint 32), ("admin_username", Val.vstr "mysqladmin")]
  | ResourceType.SQL_DATABASE =>
      [("name", Val.vnone), ("server_name", Val.vnone), ("tier", Val.vstr "Basic"),
       ("admin_username", Val.vstr "sqladmin")]
  | ResourceType.COSMOSDB =>
      [("name", Val.vnone), ("api_type", Val.vstr "SQL"),
       ("consistency_level", Val.vstr "Session"), ("enable_free_tier", Val.vbool false)]
  | _ => []

/-- C4: for every resource type, the Config Assembler applied to an empty
answer map is total (it is a total Lean function) and returns exactly the
fully-keyed object with the documented default for every key its branch
references. -/
theorem C4_empty_answers_defaults (rt : ResourceType) :
    build_config_from_answers rt [] = empty_answer_config rt := by
  cases rt <;> rfl

/-- C5 counterexample: the Config Assembler is not idempotent for
`VIRTUAL_NETWORK`.  With answers `{subnet_name: "mysub"}` the first
application folds the subnet name into the nested `subnets` list and drops
the `subnet_name` key, so a second application rebuilds `subnets` from the
default name "default" — the `subnets` entry of the twice-applied result
differs from the once-applied result. -/
theorem C5_idempotence_counterexample :
    dictGet (build_config_from_answers ResourceType.VIRTUAL_NETWORK
      (build_config_from_answers ResourceType.VIRTUAL_NETWORK
        [("subnet_name", Val.vstr "mysub")])) "subnets" ≠
    dictGet (build_config_from_answers ResourceType.VIRTUAL_NETWORK
      [("subnet_name", Val.vstr "mysub")]) "subnets" := by
  decide

/-- C5 (amended): the Config Assembler is a pure function; for every
resource type other than `VIRTUAL_NETWORK` it is idempotent (applying it
to its own output yields the same object), and for a resource type with no
dedicated branch (`NETWORK_INTERFACE`, `PUBLIC_IP`) it returns the raw
answer map unchanged.  For `VIRTUAL_NETWORK` idempotence fails when a
non-default `subnet_name`/`subnet_prefix` answer is present, because those
keys are folded into the nested `subnets` list and lost. -/
theorem C5_assembler_idempotent_except_vnet (rt : ResourceType)
    (answers : List (String × Val)) :
    (rt ≠ ResourceType.VIRTUAL_NETWORK →
      build_config_from_answers rt (build_config_from_answers rt answers) =
        build_config_from_answers rt answers) ∧
    ((rt = ResourceType.NETWORK_INTERFACE ∨ rt = ResourceType.PUBLIC_IP) →
      build_config_from_answers rt answers = answers) := by
  cases rt
  case VIRTUAL_NETWORK =>
    exact ⟨fun hne => absurd rfl hne, fun hc => by rcases hc with hc | hc <;> cases hc⟩
  all_goals
    refine ⟨fun _ => ?_, fun hc => ?_⟩
  case NETWORK_INTERFACE.refine_1 => rfl
  case NETWORK_INTERFACE.refine_2 => rfl
  case PUBLIC_IP.refine_1 => rfl
  case PUBLIC_IP.refine_2 => rfl
  all_goals
    first
      | (rcases hc with hc | hc <;> cases hc)
      | simp [build_config_from_answers, pyGet, pyGetD, dictGet]

/-- C5 witness: idempotence instantiated for the VM branch on the empty
answer map, and the unchanged-map behavior for a branchless type. -/
theorem C5_assembler_witness :
    build_config_from_answers ResourceType.VIRTUAL_MACHINE
      (build_config_from_answers ResourceType.VIRTUAL_MACHINE []) =
      build_config_from_answers ResourceType.VIRTUAL_MACHINE [] ∧
    build_config_from_answers ResourceType.NETWORK_INTERFACE [("x", Val.vint 1)] =
      [("x", Val.vint 1)] :=
  ⟨(C5_assembler_idempotent_except_vnet ResourceType.VIRTUAL_MACHINE []).1 (by decide),
   (C5_assembler_idempotent_except_vnet ResourceType.NETWORK_INTERFACE
     [("x", Val.vint 1)]).2 (Or.inl rfl)⟩

/-- C6: the Answer Validator is a pure function of the question definition
and the raw input — it threads no session or global state in this
embedding, and two calls on equal inputs return identical
`(ok, error, value)` triples, componentwise. -/
theorem C6_validator_pure (q : Question) (raw1 raw2 : String) (h : raw1 = raw2) :
    validate_answer q raw1 = validate_answer q raw2 ∧
    (validate_answer q raw1).1 = (validate_answer q raw2).1 ∧
    (validate_answer q raw1).2.1 = (validate_answer q raw2).2.1 ∧
    (validate_answer q raw1).2.2 = (validate_answer q raw2).2.2 := by
  subst h
  exact ⟨rfl, rfl, rfl, rfl⟩

/-- C6 witness: the two calls on the VM size question and input "2"
return the same triple. -/
theorem C6_validator_witness :
    validate_answer (VM_QUESTIONS.getD 1 { key := "", question := "" }) "2" =
      validate_answer (VM_QUESTIONS.getD 1 { key := "", question := "" }) "2" :=
  (C6_validator_pure (VM_QUESTIONS.getD 1 { key := "", question := "" }) "2" "2" rfl).1

/-- C1 counterexample: from a reachable session sitting in
`RESOURCE_SELECTION` (one step after creation), processing "restart" does
NOT return the stored session to `RESOURCE_SELECTION`: `reset_session`
leaves the stored state at `INITIAL`, and only the response envelope
advertises `RESOURCE_SELECTION` (the next message, whatever it is, is then
consumed by the `INITIAL` welcome handler). -/
theorem C1_restart_counterexample :
    (process_message ⟨"", true⟩
      (process_message ⟨"", true⟩ initial_session "hi").1 "restart").1.state ≠
      ConversationState.RESOURCE_SELECTION := by
  decide

/-- C1 (amended): from every session and before any state-specific
handling, a message whose case-insensitive form is a restart keyword
("restart", "reset", "start over", "new") replaces the stored session by
the fresh initial session — state `INITIAL`, with `collected_params`,
`config` and `resource_type` all cleared — and returns the
welcome/selection response labeled `RESOURCE_SELECTION` (the stored state
only advances to `RESOURCE_SELECTION` when the next message is processed). -/
theorem C1_restart_resets (env : SysEnv) (s : ConversationSession) (m : String)
    (h : restart_keywords.contains (strLower m) = true) :
    process_message env s m =
      (initial_session,
       { state := ConversationState.RESOURCE_SELECTION,
         options := some main_resource_options }) := by
  unfold process_message
  rw [if_pos h]

/-- C1 witness: "restart" issued from a reachable mid-flow session. -/
theorem C1_restart_resets_witness :
    process_message ⟨"", true⟩
      (process_message ⟨"", true⟩ initial_session "hi").1 "restart" =
      (initial_session,
       { state := ConversationState.RESOURCE_SELECTION,
         options := some main_resource_options }) :=
  C1_restart_resets ⟨"", true⟩
    (process_message ⟨"", true⟩ initial_session "hi").1 "restart" (by decide)

/-- C9: a chat message whose trimmed, case-insensitive form is "new" is
consumed by the global restart rule and never reaches any state handler:
from every session (in particular at `RESOURCE_GROUP` and `SUBSCRIPTION`)
the stored session is replaced by the fresh initial session — so no
resource group named "new" is ever stored and "new" is never treated as a
subscription id — and the restart response is returned. -/
theorem C9_new_never_reaches_handlers (env : SysEnv) (s : ConversationSession)
    (m : String) (h : strLower (strTrim m) = "new") :
    chat_step env s m =
      (initial_session,
       { state := ConversationState.RESOURCE_SELECTION,
         options := some main_resource_options }) ∧
    (chat_step env s m).1.resource_group = none ∧
    (chat_step env s m).1.subscription_id = none := by
  have hk : restart_keywords.contains (strLower (strTrim m)) = true := by
    rw [h]
    decide
  have h1 : chat_step env s m =
      (initial_session,
       { state := ConversationState.RESOURCE_SELECTION,
         options := some main_resource_options }) := by
    unfold chat_step process_message
    rw [if_pos hk]
  refine ⟨h1, ?_, ?_⟩ <;> (rw [h1]; rfl)


/-- C9 witness: "  NEW " sent to a session waiting at `RESOURCE_GROUP`. -/
theorem C9_new_witness :
    chat_step ⟨"", true⟩
      { state := ConversationState.RESOURCE_GROUP,
        resource_type := some ResourceType.VIRTUAL_MACHINE,
        subscription_id := some "12345678-1234-1234-1234-123456789012" } "  NEW " =
      (initial_session,
       { state := ConversationState.RESOURCE_SELECTION,
         options := some main_resource_options }) ∧
    (chat_step ⟨"", true⟩
      { state := ConversationState.RESOURCE_GROUP,
        resource_type := some ResourceType.VIRTUAL_MACHINE,
        subscription_id := some "12345678-1234-1234-1234-123456789012" } "  NEW ").1.resource_group = none ∧
    (chat_step ⟨"", true⟩
      { state := ConversationState.RESOURCE_GROUP,
        resource_type := some ResourceType.VIRTUAL_MACHINE,
        subscription_id := some "12345678-1234-1234-1234-123456789012" } "  NEW ").1.subscription_id = none :=
  C9_new_never_reaches_handlers ⟨"", true⟩
    { state := ConversationState.RESOURCE_GROUP,
      resource_type := some ResourceType.VIRTUAL_MACHINE,
      subscription_id := some "12345678-1234-1234-1234-123456789012" } "  NEW " (by decide)

/-- C10: at `CONFIRMATION`, the "edit" intent (also "modify"/"change",
case-insensitively, on the stripped message the chat endpoint delivers)
replaces `collected_params` wholesale with the singleton map
`{_question_index: 0}`: every other entry is erased, including the
`_user_id` and `_username` principal metadata attached at session-creation
time for an authenticated user, which is therefore not preserved across an
edit. -/
theorem C10_edit_wipes_params (env : SysEnv) (s : ConversationSession) (m : String)
    (hs : s.state = ConversationState.CONFIRMATION)
    (ht : strTrim m = m)
    (he : strLower m = "edit" ∨ strLower m = "modify" ∨ strLower m = "change") :
    (process_message env s m).1.collected_params = [("_question_index", Val.vint 0)] ∧
    dictGet (process_message env s m).1.collected_params "_user_id" = none ∧
    dictGet (process_message env s m).1.collected_params "_username" = none := by
  have hk : ¬(restart_keywords.contains (strLower m) = true) := by
    rcases he with h | h | h <;> rw [h] <;> decide
  have hmain : (process_message env s m).1.collected_params =
      [("_question_index", Val.vint 0)] := by
    unfold process_message
    rw [if_neg hk, hs]
    show (handle_confirmation s m).1.collected_params = _
    simp only [handle_confirmation]
    rw [ht]
    rcases he with h | h | h <;> rw [h] <;> simp <;> rw [gncq_collected_params]
  refine ⟨hmain, ?_, ?_⟩ <;> rw [hmain] <;> rfl

/-- C10 witness: "edit" at a confirmation-stage session created by an
authenticated user, carrying principal metadata and collected answers. -/
theorem C10_edit_witness :
    (process_message ⟨"", true⟩
      { state := ConversationState.CONFIRMATION,
        resource_type := some ResourceType.VIRTUAL_MACHINE,
        collected_params := [("_user_id", Val.vstr "u-1"), ("_username", Val.vstr "alice"),
          ("_question_index", Val.vint 6), ("name", Val.vstr "demo-vm")] }
      "edit").1.collected_params = [("_question_index", Val.vint 0)] ∧
    dictGet (process_message ⟨"", true⟩
      { state := ConversationState.CONFIRMATION,
        resource_type := some ResourceType.VIRTUAL_MACHINE,
        collected_params := [("_user_id", Val.vstr "u-1"), ("_username", Val.vstr "alice"),
          ("_question_index", Val.vint 6), ("name", Val.vstr "demo-vm")] }
      "edit").1.collected_params "_user_id" = none ∧
    dictGet (process_message ⟨"", true⟩
      { state := ConversationState.CONFIRMATION,
        resource_type := some ResourceType.VIRTUAL_MACHINE,
        collected_params := [("_user_id", Val.vstr "u-1"), ("_username", Val.vstr "alice"),
          ("_question_index", Val.vint 6), ("name", Val.vstr "demo-vm")] }
      "edit").1.collected_params "_username" = none :=
  C10_edit_wipes_params ⟨"", true⟩
    { state := ConversationState.CONFIRMATION,
      resource_type := some ResourceType.VIRTUAL_MACHINE,
      collected_params := [("_user_id", Val.vstr "u-1"), ("_username", Val.vstr "alice"),
        ("_question_index", Val.vint 6), ("name", Val.vstr "demo-vm")] }
    "edit" rfl (by decide) (Or.inl (by decide))

/-- C7: in every reachable session the `_question_index` cursor stored in
`collected_params` is an integer in `[0, len(questions_for(resource_type))]`
(`cursor_in_bounds`); moreover one processed message advances the cursor by
at most 1, and any transition that enters `RESOURCE_CONFIG` from another
state sets the cursor to 0. -/
theorem C7_cursor_invariant (s : ConversationSession) (h : Reachable s) :
    cursor_in_bounds s ∧
    (∀ env m, question_index (process_message env s m).1.collected_params ≤
      question_index s.collected_params + 1) ∧
    (∀ env m, s.state ≠ ConversationState.RESOURCE_CONFIG →
      (process_message env s m).1.state = ConversationState.RESOURCE_CONFIG →
      question_index (process_message env s m).1.collected_params = 0) :=
  ⟨(session_inv_reachable s h).1,
   fun env m => question_index_step_le env s m,
   fun env m hfrom hto => question_index_enter_config env s m hfrom hto⟩

/-- C7 witness: the invariant at the freshly created session, and the
step bound for a concrete message. -/
theorem C7_cursor_witness :
    cursor_in_bounds initial_session ∧
    question_index (process_message ⟨"", true⟩ initial_session "hi").1.collected_params ≤
      question_index initial_session.collected_params + 1 :=
  ⟨(C7_cursor_invariant initial_session Reachable.init).1,
   (C7_cursor_invariant initial_session Reachable.init).2.1 ⟨"", true⟩ "hi"⟩

/-- C8: `config` is empty in every session reachable without the stored
state ever having been `CONFIRMATION`; a single step either leaves
`config` unchanged, clears it (reset), or — exactly at the transition into
`CONFIRMATION` — populates it with the Config Assembler output for the
session's resource type and collected parameters; and a restart-keyword
message always returns `config` to empty. -/
theorem C8_config_lifecycle :
    (∀ s, ReachableNoConf s → s.config = []) ∧
    (∀ (env : SysEnv) (s : ConversationSession) (m : String),
      (process_message env s m).1.config = s.config ∨
      (process_message env s m).1.config = [] ∨
      ((process_message env s m).1.state = ConversationState.CONFIRMATION ∧
       (process_message env s m).1.config = assemble_config (process_message env s m).1)) ∧
    (∀ (env : SysEnv) (s : ConversationSession) (m : String),
      restart_keywords.contains (strLower m) = true →
      (process_message env s m).1.config = []) :=
  ⟨fun s h => config_empty_before_confirmation s h,
   fun env s m => config_step env s m,
   fun env s m h => by
     unfold process_message
     rw [if_pos h]
     rfl⟩

/-- C8 witness: emptiness at the fresh session and after a restart. -/
theorem C8_config_witness :
    initial_session.config = [] ∧
    (process_message ⟨"", true⟩ initial_session "restart").1.config = [] :=
  ⟨C8_config_lifecycle.1 initial_session ReachableNoConf.init,
   C8_config_lifecycle.2.2 ⟨"", true⟩ initial_session "restart" (by decide)⟩

/-- Scenario A message sequence (spec §8): select the VM, use the default
subscription, create resource group demo-rg, pick eastus, then answer the
six VM questions — a name for the first and empty input (take the default)
for the rest. -/
def scenario_a_messages : List String :=
  ["Virtual Machine", "default", "new:demo-rg", "eastus", "demo-vm", "", "", "", "", ""]

/-- Scenario A as the claim words it: every VM question answered with
empty input. -/
def scenario_a_all_default_messages : List String :=
  ["Virtual Machine", "default", "new:demo-rg", "eastus", "", "", "", "", "", ""]

/-- Run a scenario against a backend whose `AZURE_SUBSCRIPTION_ID` is
`sub`, starting from a fresh session that has received the initial
welcome exchange (the `INITIAL` handler consumes the first message without
reading it, so the selection happens on the next message). -/
def scenario_a_run (sub : String) (msgs : List String) : ConversationSession :=
  run_messages ⟨sub, true⟩
    (process_message ⟨sub, true⟩ initial_session "hello").1 msgs

def scenario_a_after_selection : ConversationSession :=
  { state := ConversationState.SUBSCRIPTION,
    resource_type := some ResourceType.VIRTUAL_MACHINE }

def scenario_a_after_subscription (sub : String) : ConversationSession :=
  { state := ConversationState.RESOURCE_GROUP,
    resource_type := some ResourceType.VIRTUAL_MACHINE,
    subscription_id := some sub }

def scenario_a_after_rg (sub : String) : ConversationSession :=
  { state := ConversationState.REGION,
    resource_type := some ResourceType.VIRTUAL_MACHINE,
    subscription_id := some sub,
    resource_group := some "demo-rg", create_new_rg := true }

/-- The session after `k` VM questions have been answered in scenario A
(`k ≤ 5`; the sixth answer triggers the move to confirmation). -/
def scenario_a_mid (sub : String) (answered : List (String × Val)) (k : Int) :
    ConversationSession :=
  { state := ConversationState.RESOURCE_CONFIG,
    resource_type := some ResourceType.VIRTUAL_MACHINE,
    subscription_id := some sub,
    resource_group := some "demo-rg", create_new_rg := true,
    region := some "eastus",
    collected_params := ("_question_index", Val.vint k) :: answered }

def scenario_a_final (sub : String) : ConversationSession :=
  { state := ConversationState.CONFIRMATION,
    resource_type := some ResourceType.VIRTUAL_MACHINE,
    subscription_id := some sub,
    resource_group := some "demo-rg", create_new_rg := true,
    region := some "eastus",
    config := [("name", Val.vstr "demo-vm"), ("size", Val.vstr "Standard_B2s"),
      ("os_image", Val.vstr "Ubuntu2204"), ("os_disk_type", Val.vstr "Standard_LRS"),
      ("admin_username", Val.vstr "azureuser"), ("create_public_ip", Val.vbool true),
      ("generate_ssh_key", Val.vbool true)],
    collected_params := [("_question_index", Val.vint 6), ("name", Val.vstr "demo-vm"),
      ("size", Val.vstr "Standard_B2s"), ("os_image", Val.vstr "Ubuntu2204"),
      ("os_disk_type", Val.vstr "Standard_LRS"), ("admin_username", Val.vstr "azureuser"),
      ("create_public_ip", Val.vbool true)] }

lemma scenario_a_welcome_and_selection (sub : String) :
    (chat_step ⟨sub, true⟩
      (process_message ⟨sub, true⟩ initial_session "hello").1 "Virtual Machine").1 =
      scenario_a_after_selection := rfl

lemma scenario_a_subscription_step (sub : String) (hne : sub ≠ "")
    (hlt : ¬(sub.length < 32)) :
    (chat_step ⟨sub, true⟩ scenario_a_after_selection "default").1 =
      scenario_a_after_subscription sub := by
  have hcond : restart_keywords.contains (strLower (strTrim "default")) = false := by decide
  have hdef : strLower (strTrim (strTrim "default")) = "default" := by decide
  show (process_message ⟨sub, true⟩ scenario_a_after_selection (strTrim "default")).1 = _
  unfold process_message
  rw [hcond, if_neg Bool.false_ne_true]
  show (handle_subscription ⟨sub, true⟩ scenario_a_after_selection (strTrim "default")).1 = _
  simp only [handle_subscription]
  rw [if_pos hdef]
  rw [if_neg hne, if_neg hlt]
  rfl

lemma scenario_a_rg_step (sub : String) :
    (chat_step ⟨sub, true⟩ (scenario_a_after_subscription sub) "new:demo-rg").1 =
      scenario_a_after_rg sub := rfl

lemma scenario_a_region_step (sub : String) :
    (chat_step ⟨sub, true⟩ (scenario_a_after_rg sub) "eastus").1 =
      scenario_a_mid sub [] 0 := rfl

lemma scenario_a_name_step (sub : String) :
    (chat_step ⟨sub, true⟩ (scenario_a_mid sub [] 0) "demo-vm").1 =
      scenario_a_mid sub [("name", Val.vstr "demo-vm")] 1 := rfl

lemma scenario_a_size_step (sub : String) :
    (chat_step ⟨sub, true⟩ (scenario_a_mid sub [("name", Val.vstr "demo-vm")] 1) "").1 =
      scenario_a_mid sub [("name", Val.vstr "demo-vm"),
        ("size", Val.vstr "Standard_B2s")] 2 := rfl

lemma scenario_a_os_step (sub : String) :
    (chat_step ⟨sub, true⟩ (scenario_a_mid sub [("name", Val.vstr "demo-vm"),
      ("size", Val.vstr "Standard_B2s")] 2) "").1 =
      scenario_a_mid sub [("name", Val.vstr "demo-vm"),
        ("size", Val.vstr "Standard_B2s"), ("os_image", Val.vstr "Ubuntu2204")] 3 := rfl

lemma scenario_a_disk_step (sub : String) :
    (chat_step ⟨sub, true⟩ (scenario_a_mid sub [("name", Val.vstr "demo-vm"),
      ("size", Val.vstr "Standard_B2s"), ("os_image", Val.vstr "Ubuntu2204")] 3) "").1 =
      scenario_a_mid sub [("name", Val.vstr "demo-vm"),
        ("size", Val.vstr "Standard_B2s"), ("os_image", Val.vstr "Ubuntu2204"),
        ("os_disk_type", Val.vstr "Standard_LRS")] 4 := rfl

lemma scenario_a_admin_step (sub : String) :
    (chat_step ⟨sub, true⟩ (scenario_a_mid sub [("name", Val.vstr "demo-vm"),
      ("size", Val.vstr "Standard_B2s"), ("os_image", Val.vstr "Ubuntu2204"),
      ("os_disk_type", Val.vstr "Standard_LRS")] 4) "").1 =
      scenario_a_mid sub [("name", Val.vstr "demo-vm"),
        ("size", Val.vstr "Standard_B2s"), ("os_image", Val.vstr "Ubuntu2204"),
        ("os_disk_type", Val.vstr "Standard_LRS"),
        ("admin_username", Val.vstr "azureuser")] 5 := rfl

lemma scenario_a_last_step (sub : String) :
    (chat_step ⟨sub, true⟩ (scenario_a_mid sub [("name", Val.vstr "demo-vm"),
      ("size", Val.vstr "Standard_B2s"), ("os_image", Val.vstr "Ubuntu2204"),
      ("os_disk_type", Val.vstr "Standard_LRS"),
      ("admin_username", Val.vstr "azureuser")] 5) "").1 =
      scenario_a_final sub := rfl

set_option maxHeartbeats 1000000 in
/-- C2 counterexample: answering every VM configuration question with
empty input does NOT reach `CONFIRMATION`.  The first VM question (the
name) has no default (`"default": None`), so empty input is not
substituted, fails the length validation, and the session re-asks the
name question forever: after the full message sequence the session is
still in `RESOURCE_CONFIG`. -/
theorem C2_all_defaults_counterexample :
    (scenario_a_run "12345678-1234-1234-1234-123456789012"
      scenario_a_all_default_messages).state ≠ ConversationState.CONFIRMATION ∧
    (scenario_a_run "12345678-1234-1234-1234-123456789012"
      scenario_a_all_default_messages).state = ConversationState.RESOURCE_CONFIG := by
  constructor
  · decide
  · decide

/-- C2 (amended): with a default subscription of plausible GUID length
configured, selecting "Virtual Machine", supplying subscription
"default", resource group "new:demo-rg", region "eastus", then answering
the name question with a valid name ("demo-vm") and every remaining VM
question with empty input (taking defaults) reaches `CONFIRMATION` with
`config.size = "Standard_B2s"`, `config.os_image = "Ubuntu2204"` and
`config.admin_username = "azureuser"`. -/
theorem C2_vm_defaults_scenario (sub : String) (h32 : 32 ≤ sub.length) :
    (scenario_a_run sub scenario_a_messages).state = ConversationState.CONFIRMATION ∧
    dictGet (scenario_a_run sub scenario_a_messages).config "size" =
      some (Val.vstr "Standard_B2s") ∧
    dictGet (scenario_a_run sub scenario_a_messages).config "os_image" =
      some (Val.vstr "Ubuntu2204") ∧
    dictGet (scenario_a_run sub scenario_a_messages).config "admin_username" =
      some (Val.vstr "azureuser") := by
  have hne : sub ≠ "" := by
    intro he
    rw [he] at h32
    exact absurd h32 (by decide)
  have hlt : ¬(sub.length < 32) := by omega
  have hrun : scenario_a_run sub scenario_a_messages = scenario_a_final sub := by
    show run_messages ⟨sub, true⟩
      (process_message ⟨sub, true⟩ initial_session "hello").1 scenario_a_messages = _
    simp only [scenario_a_messages, run_messages, List.foldl_cons, List.foldl_nil]
    rw [scenario_a_welcome_and_selection, scenario_a_subscription_step sub hne hlt,
        scenario_a_rg_step, scenario_a_region_step, scenario_a_name_step,
        scenario_a_size_step, scenario_a_os_step, scenario_a_disk_step,
        scenario_a_admin_step, scenario_a_last_step]
  rw [hrun]
  exact ⟨rfl, rfl, rfl, rfl⟩

/-- C2 witness: the amended scenario at a concrete 36-character GUID. -/
theorem C2_vm_defaults_witness :
    (scenario_a_run "12345678-1234-1234-1234-123456789012"
      scenario_a_messages).state = ConversationState.CONFIRMATION ∧
    dictGet (scenario_a_run "12345678-1234-1234-1234-123456789012"
      scenario_a_messages).config "size" = some (Val.vstr "Standard_B2s") ∧
    dictGet (scenario_a_run "12345678-1234-1234-1234-123456789012"
      scenario_a_messages).config "os_image" = some (Val.vstr "Ubuntu2204") ∧
    dictGet (scenario_a_run "12345678-1234-1234-1234-123456789012"
      scenario_a_messages).config "admin_username" = some (Val.vstr "azureuser") :=
  C2_vm_defaults_scenario "12345678-1234-1234-1234-123456789012" (by decide)
